import Mathlib

/-
Verification of the FAC-HABITAT availability monitor.

The repository holds two Python implementations of the same pipeline:
  * `src/fac-habitat-monitor/monitor.py`  — the static-page variant ("monitor"),
  * `src/fac_habitat_monitor.py`          — the interactive CLI variant ("cli").

This file gives a shallow embedding of the pure decision logic of both:
the status classifier cascade, the row-based unit extractor with its raw-markup
fallback, the Île-de-France directory filter, and the main scan loop of
`monitor.py` with its snapshot state and upgrade-event detection.

External collaborators (HTTP fetching, BeautifulSoup tree queries) are
abstracted: a fetched reservation fragment is a `Page` carrying the list of
table rows (each a list of `Cell`) together with the raw markup text; the
per-residence network outcome is a `FetchOutcome` oracle value.
-/

namespace FacHabitat

/-- Substring containment, the model of the Python `in` operator on strings
(`pat in hay`): some suffix of `hay` starts with `pat`. -/
def containsSubstr : List Char → List Char → Bool
  | [], pat => pat.isPrefixOf ([] : List Char)
  | c :: t, pat => pat.isPrefixOf (c :: t) || containsSubstr t pat

/-- Model of Python `str.lower()` restricted to the ASCII range
(`Char.toLower` lowers exactly the letters the patterns below contain). -/
def lowerL (s : List Char) : List Char := s.map Char.toLower

/-- Case-insensitive literal matcher used to model `re.IGNORECASE` on the
ASCII letters of a pattern: consumes `pat` (given in lowercase) from the front
of the subject and returns the rest, or `none`. -/
def matchLitCI : List Char → List Char → Option (List Char)
  | [], s => some s
  | _ :: _, [] => none
  | p :: ps, c :: cs => if c.toLower == p then matchLitCI ps cs else none

/-- Matcher for the character class `[eé]` under `re.IGNORECASE`. -/
def matchEAcc : List Char → Option (List Char)
  | [] => none
  | c :: cs => if c == 'e' || c == 'E' || c == 'é' || c == 'É' then some cs else none

/-- Greedy `\s*`: drop leading whitespace (the following pattern letter is
never whitespace, so greedy matching needs no backtracking). -/
def dropWS (s : List Char) : List Char := s.dropWhile Char.isWhitespace

/-- Anchored match of the regex `disponibilit[eé]\s*imm[eé]diate`
 (monitor.py lines 108-110, fac_habitat_monitor.py lines 127-129). -/
def dispoImmedAt (s : List Char) : Bool :=
  match matchLitCI "disponibilit".data s with
  | none => false
  | some s1 =>
    match matchEAcc s1 with
    | none => false
    | some s2 =>
      match matchLitCI "imm".data (dropWS s2) with
      | none => false
      | some s3 =>
        match matchEAcc s3 with
        | none => false
        | some s4 => (matchLitCI "diate".data s4).isSome

/-- Model of `re.search(r"disponibilit[eé]\s*imm[eé]diate", s, re.IGNORECASE)`:
 try the anchored match at every position. -/
def reSearchDispoImmed : List Char → Bool
  | [] => dispoImmedAt []
  | c :: t => dispoImmedAt (c :: t) || reSearchDispoImmed t

/-- Anchored match of the regex `aucune\s*disponibilit[eé]`
 (monitor.py lines 117-119, fac_habitat_monitor.py lines 139-141). -/
def aucuneAt (s : List Char) : Bool :=
  match matchLitCI "aucune".data s with
  | none => false
  | some s1 =>
    match matchLitCI "disponibilit".data (dropWS s1) with
    | none => false
    | some s2 => (matchEAcc s2).isSome

/-- Model of `re.search(r"aucune\s*disponibilit[eé]", s, re.IGNORECASE)`. -/
def reSearchAucune : List Char → Bool
  | [] => aucuneAt []
  | c :: t => aucuneAt (c :: t) || reSearchAucune t

/-- Model of `re.match(r"T\d", s)` (monitor.py line 98,
fac_habitat_monitor.py line 115): anchored at the start, the first character
is a capital `T` and the second a digit. -/
def reMatchTDigit (s : String) : Bool :=
  match s.data with
  | a :: b :: _ => a == 'T' && b.isDigit
  | _ => false

/-- Status rank used for upgrade detection, the model of the dict
`rank = {"INDISPONIBLE": 0, "DEMANDE_POSSIBLE": 1, "DEPOSER_DEMANDE": 2,
"DISPONIBLE": 3}` read through `rank.get(x, 0)` (monitor.py lines 326-327):
unknown strings default to 0. -/
def rank (s : String) : Nat :=
  if s = "INDISPONIBLE" then 0
  else if s = "DEMANDE_POSSIBLE" then 1
  else if s = "DEPOSER_DEMANDE" then 2
  else if s = "DISPONIBLE" then 3
  else 0

/-- The status-classifier cascade, shared verbatim by both implementations
 (monitor.py lines 121-128, fac_habitat_monitor.py lines 144-151). -/
def classifyStatus (has_btn has_dispo_immed is_green has_aucune : Bool) : String :=
  if has_dispo_immed || is_green then "DISPONIBLE"
  else if has_btn && !has_aucune then "DEPOSER_DEMANDE"
  else if has_btn && has_aucune then "DEMANDE_POSSIBLE"
  else "INDISPONIBLE"

/-- One `<td>` cell of a reservation-table row, abstracting the BeautifulSoup
queries the extractors perform on it:
`text` is `get_text(strip=True)`, `textSpaced` is `get_text(" ", strip=True)`,
`hasBtnReserver` is `find("a", class_="btn_reserver") is not None`, and
`dispoSpanClasses` is the class list of `find("span", class_="dispo")`
 (`none` when no such span exists). -/
structure Cell where
  text : String
  textSpaced : String
  hasBtnReserver : Bool
  dispoSpanClasses : Option (List String)
deriving DecidableEq

/-- The unit record assembled per accepted row (the dict with keys
`type`, `loyer`, `surface`, `status`). -/
structure UnitRecord where
  type : String
  loyer : String
  surface : String
  status : String
deriving DecidableEq

/-- Badge check `is_green`: `"green" in dispo_span.get("class", [])` when the
span exists, `False` otherwise (monitor.py lines 112-115). -/
def spanGreen (c : Cell) : Bool :=
  match c.dispoSpanClasses with
  | some span_classes => span_classes.contains "green"
  | none => false

/-- The per-row body of `check_availability` in monitor.py (lines 92-135):
rows with fewer than two cells are skipped, the first cell must match `T\d`,
rent and surface come from cells 1 and 2, and the four availability signals
are read from the last cell; `none` models the loop's `continue`. -/
def rowRecord_monitor (cols : List Cell) : Option UnitRecord :=
  match cols with
  | c0 :: c1 :: rest =>
    let type_cell := c0.text
    if reMatchTDigit type_cell then
      let loyer := c1.text
      let surface := match rest with
        | c2 :: _ => c2.text
        | [] => ""
      let last_col := rest.getLastD c1
      let has_btn := last_col.hasBtnReserver
      let has_dispo_immed := reSearchDispoImmed last_col.textSpaced.data
      let is_green := spanGreen last_col
      let has_aucune := reSearchAucune last_col.textSpaced.data
      some { type := type_cell, loyer := loyer, surface := surface,
             status := classifyStatus has_btn has_dispo_immed is_green has_aucune }
    else none
  | _ => none

/-- The per-row body of `check_availability` in fac_habitat_monitor.py
 (lines 108-158); identical to the monitor variant except that it also
computes an `is_red` flag (lines 133-137) that is never used afterwards. -/
def rowRecord_cli (cols : List Cell) : Option UnitRecord :=
  match cols with
  | c0 :: c1 :: rest =>
    let type_cell := c0.text
    if reMatchTDigit type_cell then
      let loyer := c1.text
      let surface := match rest with
        | c2 :: _ => c2.text
        | [] => ""
      let last_col := rest.getLastD c1
      let has_btn := last_col.hasBtnReserver
      let has_dispo_immed := reSearchDispoImmed last_col.textSpaced.data
      let is_green := spanGreen last_col
      let _is_red :=
        match last_col.dispoSpanClasses with
        | some span_classes => span_classes.contains "red"
        | none => false
      let has_aucune := reSearchAucune last_col.textSpaced.data
      some { type := type_cell, loyer := loyer, surface := surface,
             status := classifyStatus has_btn has_dispo_immed is_green has_aucune }
    else none
  | _ => none

/-- Raw-markup signal `has_deposer` =
`"poser une demande" in html.lower() or "btn_reserver" in html`
 (monitor.py line 138, fac_habitat_monitor.py line 162). -/
def has_deposer_raw (html : List Char) : Bool :=
  containsSubstr (lowerL html) "poser une demande".data ||
  containsSubstr html "btn_reserver".data

/-- Raw-markup signal `has_immed` =
`"immédiate" in html or "imm&eacute;diate" in html`
 (monitor.py line 139, fac_habitat_monitor.py line 163). -/
def has_immed_raw (html : List Char) : Bool :=
  containsSubstr html "immédiate".data ||
  containsSubstr html "imm&eacute;diate".data

/-- Raw-markup signal `has_aucune` = `"aucune disponibilit" in html.lower()`
 (monitor.py line 140). -/
def has_aucune_raw (html : List Char) : Bool :=
  containsSubstr (lowerL html) "aucune disponibilit".data

/-- Raw-markup signal `has_aucune` of the CLI variant
 (fac_habitat_monitor.py line 164), which adds a redundant un-lowered check:
`"aucune disponibilit" in html.lower() or "aucune disponibilit" in html`. -/
def has_aucune_raw_cli (html : List Char) : Bool :=
  has_aucune_raw html || containsSubstr html "aucune disponibilit".data

/-- The fallback pass of monitor.py (lines 137-146), run only when the row
pass produced nothing. -/
def fallback_monitor (html : List Char) : List UnitRecord :=
  if has_immed_raw html then
    [{ type := "?", loyer := "", surface := "", status := "DISPONIBLE" }]
  else if has_deposer_raw html && !has_aucune_raw html then
    [{ type := "?", loyer := "", surface := "", status := "DEPOSER_DEMANDE" }]
  else []

/-- The fallback pass of fac_habitat_monitor.py (lines 160-172), which has an
extra `DEMANDE_POSSIBLE` branch the monitor variant lacks. -/
def fallback_cli (html : List Char) : List UnitRecord :=
  if has_immed_raw html then
    [{ type := "?", loyer := "", surface := "", status := "DISPONIBLE" }]
  else if has_deposer_raw html && !has_aucune_raw_cli html then
    [{ type := "?", loyer := "", surface := "", status := "DEPOSER_DEMANDE" }]
  else if has_deposer_raw html then
    [{ type := "?", loyer := "", surface := "", status := "DEMANDE_POSSIBLE" }]
  else []

/-- A fetched reservation fragment: the `<tr>` rows found by the tree query
 (each row already reduced to its `<td>` cells) and the raw markup text used
by the fallback pass. -/
structure Page where
  rows : List (List Cell)
  html : List Char

/-- `check_availability` of monitor.py (lines 83-147) on an already-fetched
fragment: the row pass, then the fallback when it yielded nothing. -/
def check_availability_monitor (pg : Page) : List UnitRecord :=
  let results := pg.rows.filterMap rowRecord_monitor
  if results = [] then fallback_monitor pg.html else results

/-- `check_availability` of fac_habitat_monitor.py (lines 94-173) on an
already-fetched fragment. -/
def check_availability_cli (pg : Page) : List UnitRecord :=
  let results := pg.rows.filterMap rowRecord_cli
  if results = [] then fallback_cli pg.html else results

/-- Spec-side status lattice of §3 of the design document, named as the spec
names it: UNAVAILABLE < REQUEST_POSSIBLE < REQUEST_OPEN < IMMEDIATELY_AVAILABLE. -/
inductive SpecStatus where
  | UNAVAILABLE
  | REQUEST_POSSIBLE
  | REQUEST_OPEN
  | IMMEDIATELY_AVAILABLE
deriving DecidableEq

/-- The classifier cascade exactly as §4.3 of the spec words it, written from
the spec to compare against the code's `classifyStatus`. -/
def specClassify (hasReserveButton hasImmediateText isGreenBadge hasNoneText : Bool) :
    SpecStatus :=
  if hasImmediateText || isGreenBadge then SpecStatus.IMMEDIATELY_AVAILABLE
  else if hasReserveButton && !hasNoneText then SpecStatus.REQUEST_OPEN
  else if hasReserveButton && hasNoneText then SpecStatus.REQUEST_POSSIBLE
  else SpecStatus.UNAVAILABLE

/-- Correspondence between the spec's status names and the code's status
strings. -/
def specStatusName : SpecStatus → String
  | SpecStatus.IMMEDIATELY_AVAILABLE => "DISPONIBLE"
  | SpecStatus.REQUEST_OPEN => "DEPOSER_DEMANDE"
  | SpecStatus.REQUEST_POSSIBLE => "DEMANDE_POSSIBLE"
  | SpecStatus.UNAVAILABLE => "INDISPONIBLE"

/-- One raw catalog entry of the residence JSON index: the fields the two
filters read through `info.get(...)`, each possibly absent. -/
structure CatalogInfo where
  cp : Option String
  titre : Option String
  titre_fr : Option String
  ville : Option String
  adresse : Option String
deriving DecidableEq

/-- A filtered residence as monitor.py builds it (lines 56-61). -/
structure Residence where
  id : String
  nom : String
  ville : String
  cp : String
deriving DecidableEq

/-- A filtered residence as fac_habitat_monitor.py builds it (lines 65-71),
which additionally carries the address. -/
structure ResidenceCli where
  id : String
  nom : String
  ville : String
  cp : String
  adresse : String
deriving DecidableEq

/-- The fixed allow-list of Île-de-France postal-code beginnings
 (`IDF_PREFIXES`, monitor.py line 25, fac_habitat_monitor.py line 33). -/
def IDF_PREFIXES : List String :=
  ["75", "77", "78", "91", "92", "93", "94", "95"]

/-- Model of Python `cp.startswith(IDF_PREFIXES)` with a tuple argument:
true when `cp` starts with any element of the list. -/
def startswithAny (cp : String) (ps : List String) : Bool :=
  ps.any (fun p => p.data.isPrefixOf cp.data)

/-- Keep-condition of monitor.py (line 55):
`cp.startswith(IDF_PREFIXES) and "logifac" not in nom.lower()`, where
`cp = info.get("cp", "")` and `nom = info.get("titre", info.get("titre_fr", ""))`. -/
def keep_monitor (e : String × CatalogInfo) : Bool :=
  startswithAny (e.2.cp.getD "") IDF_PREFIXES &&
  !containsSubstr (lowerL (e.2.titre.getD (e.2.titre_fr.getD "")).data) "logifac".data

/-- Keep-condition of fac_habitat_monitor.py (line 64):
`cp.startswith(IDF_PREFIXES)` only. -/
def keep_cli (e : String × CatalogInfo) : Bool :=
  startswithAny (e.2.cp.getD "") IDF_PREFIXES

/-- The residence dict monitor.py appends (lines 56-61). -/
def mkResidence_monitor (e : String × CatalogInfo) : Residence :=
  { id := e.1
    nom := e.2.titre.getD (e.2.titre_fr.getD ("Résidence " ++ e.1))
    ville := e.2.ville.getD "?"
    cp := e.2.cp.getD "" }

/-- The residence dict fac_habitat_monitor.py appends (lines 65-71). -/
def mkResidence_cli (e : String × CatalogInfo) : ResidenceCli :=
  { id := e.1
    nom := e.2.titre.getD (e.2.titre_fr.getD ("Résidence " ++ e.1))
    ville := e.2.ville.getD "?"
    cp := e.2.cp.getD ""
    adresse := e.2.adresse.getD "" }

/-- The Python sort key comparison for `key=lambda r: (r["cp"], r["nom"])`:
lexicographic order on the (postal code, name) pair of strings. -/
def pairLE (k1 k2 : String × String) : Prop :=
  k1.1 < k2.1 ∨ (k1.1 = k2.1 ∧ k1.2 ≤ k2.2)

instance (k1 k2 : String × String) : Decidable (pairLE k1 k2) := by
  unfold pairLE
  infer_instance

/-- Boolean comparator on monitor residences for the stable sort. -/
def resLE (a b : Residence) : Bool := decide (pairLE (a.cp, a.nom) (b.cp, b.nom))

/-- Boolean comparator on CLI residences for the stable sort. -/
def resLE_cli (a b : ResidenceCli) : Bool := decide (pairLE (a.cp, a.nom) (b.cp, b.nom))

/-- `get_idf_residences` of monitor.py (lines 45-64) on an already-fetched
catalog, modelled as an association list to keep the JSON object's iteration
order (`idf.sort` is stable, as is `mergeSort`). -/
def get_idf_residences_monitor (data : List (String × CatalogInfo)) : List Residence :=
  (data.filterMap fun e =>
    if keep_monitor e then some (mkResidence_monitor e) else none).mergeSort resLE

/-- `get_idf_residences` of fac_habitat_monitor.py (lines 54-75) on an
already-fetched catalog. -/
def get_idf_residences_cli (data : List (String × CatalogInfo)) : List ResidenceCli :=
  (data.filterMap fun e =>
    if keep_cli e then some (mkResidence_cli e) else none).mergeSort resLE_cli

/-- The upgrade-notification dict appended to `new_availabilities`
 (monitor.py lines 328-336). -/
structure UpgradeEvent where
  residence : String
  ville : String
  type : String
  loyer : String
  status : String
  prev_status : String
  url : String
deriving DecidableEq

/-- `BASE_URL` (monitor.py line 21). -/
def BASE_URL : String := "https://www.fac-habitat.com"

/-- The snapshot key `f"{res['id']}_{l['type']}"` (monitor.py line 321). -/
def snapKey (rid : String) (t : String) : String := rid ++ "_" ++ t

/-- The event record built at monitor.py lines 328-336. -/
def mkUpgradeEvent (res : Residence) (l : UnitRecord) (prev : String) : UpgradeEvent :=
  { residence := res.nom
    ville := res.ville
    type := l.type
    loyer := l.loyer
    status := l.status
    prev_status := prev
    url := BASE_URL ++ "/fr/residences-etudiantes/id-" ++ res.id }

/-- Per-residence outcome of the external fetches inside the `try` block of
monitor.py's main loop: an exception raised by `get_iframe_url` or
`check_availability`, a residence page without a reservation iframe, or the
extracted unit records. -/
inductive FetchOutcome where
  | fetchError
  | noIframe
  | ok (logements : List UnitRecord)
deriving DecidableEq

/-- The unit records the main loop sees for one residence: an exception or a
missing iframe contributes none. -/
def unitsOf : FetchOutcome → List UnitRecord
  | FetchOutcome.ok ls => ls
  | _ => []

/-- A snapshot (the `last_state.json` content and the in-memory dicts
`previous_state` / `current_state`): a mapping from key to status string. -/
def Snapshot : Type := String → Option String

/-- The inner loop of monitor.py's main (lines 320-336): for each extracted
unit record, write its status into `current_state` and append an upgrade
event when its rank strictly exceeds the rank of the previous status
 (`previous_state.get(key, "INDISPONIBLE")`). -/
def processUnits (res : Residence) (previous_state : Snapshot) :
    List UnitRecord → Snapshot → List UpgradeEvent → Snapshot × List UpgradeEvent
  | [], cur, evs => (cur, evs)
  | l :: ls, cur, evs =>
    let key := snapKey res.id l.type
    let cur2 : Snapshot := fun k => if k = key then some l.status else cur k
    let prev := (previous_state key).getD "INDISPONIBLE"
    let evs2 := if rank l.status > rank prev then evs ++ [mkUpgradeEvent res l prev] else evs
    processUnits res previous_state ls cur2 evs2

/-- The residence loop of monitor.py's main (lines 306-352), threading
`current_state`, `all_results` and `new_availabilities`. A fetch outcome of
`fetchError` or `noIframe` records `(res, [])` and moves on (lines 312-315
and 348-350); a successful extraction records the units and runs the inner
loop. -/
def runScan (previous_state : Snapshot) :
    List (Residence × FetchOutcome) → Snapshot →
    List (Residence × List UnitRecord) → List UpgradeEvent →
    Snapshot × List (Residence × List UnitRecord) × List UpgradeEvent
  | [], cur, acc, evs => (cur, acc, evs)
  | (res, FetchOutcome.fetchError) :: rest, cur, acc, evs =>
    runScan previous_state rest cur (acc ++ [(res, [])]) evs
  | (res, FetchOutcome.noIframe) :: rest, cur, acc, evs =>
    runScan previous_state rest cur (acc ++ [(res, [])]) evs
  | (res, FetchOutcome.ok ls) :: rest, cur, acc, evs =>
    let step := processUnits res previous_state ls cur evs
    runScan previous_state rest step.1 (acc ++ [(res, ls)]) step.2

/-- One full run of monitor.py's main scan (lines 301-355) over the oracle of
per-residence fetch outcomes, starting from `current_state = {}`: returns the
snapshot passed to `save_state`, the `all_results` list and the
`new_availabilities` list. -/
def runMonitor (previous_state : Snapshot) (inputs : List (Residence × FetchOutcome)) :
    Snapshot × List (Residence × List UnitRecord) × List UpgradeEvent :=
  runScan previous_state inputs (fun _ => none) [] []

/-- The flattened `(residence, unit record)` observations of a run, in
residence order then unit order within a residence. -/
def observations (inputs : List (Residence × FetchOutcome)) :
    List (Residence × UnitRecord) :=
  inputs.flatMap fun ri => (unitsOf ri.2).map fun l => (ri.1, l)

/-- The upgrade event one observation produces, if any: compare the new
status rank against the rank of the previous status of its key. -/
def eventOf (previous_state : Snapshot) (rl : Residence × UnitRecord) :
    Option UpgradeEvent :=
  let prev := (previous_state (snapKey rl.1.id rl.2.type)).getD "INDISPONIBLE"
  if rank rl.2.status > rank prev then some (mkUpgradeEvent rl.1 rl.2 prev) else none

/-- Sequential dict writes of the observations into a snapshot. -/
def writeObs : List (Residence × UnitRecord) → Snapshot → Snapshot
  | [], cur => cur
  | rl :: rest, cur =>
    writeObs rest (fun k => if k = snapKey rl.1.id rl.2.type then some rl.2.status else cur k)

/-- The status of the last observation writing a given key, if any. -/
def lastStatusWrite (k : String) : List (Residence × UnitRecord) → Option String
  | [] => none
  | rl :: rest =>
    (lastStatusWrite k rest).or
      (if k = snapKey rl.1.id rl.2.type then some rl.2.status else none)

/-! Helper lemmas about the embedding. -/

theorem containsSubstr_spec (pat : List Char) :
    ∀ hay : List Char, containsSubstr hay pat = true ↔ pat <:+: hay := by
  intro hay
  induction hay with
  | nil =>
    simp [containsSubstr, List.infix_nil, List.isPrefixOf_iff_prefix,
      List.prefix_nil]
  | cons c t ih =>
    simp [containsSubstr, List.infix_cons_iff, List.isPrefixOf_iff_prefix, ih]

theorem lowerL_fixed_pattern (pat : List Char) (hpat : lowerL pat = pat)
    (hay : List Char) (h : containsSubstr hay pat = true) :
    containsSubstr (lowerL hay) pat = true := by
  rw [containsSubstr_spec] at h ⊢
  have : lowerL pat <:+: lowerL hay := List.IsInfix.map Char.toLower h
  rwa [hpat] at this

theorem has_aucune_raw_cli_eq (html : List Char) :
    has_aucune_raw_cli html = has_aucune_raw html := by
  unfold has_aucune_raw_cli
  cases hr : containsSubstr html "aucune disponibilit".data with
  | false => simp
  | true =>
    have h := lowerL_fixed_pattern "aucune disponibilit".data (by decide) html hr
    simp [has_aucune_raw, h]

theorem rowRecord_cli_eq_monitor : rowRecord_cli = rowRecord_monitor := by
  funext cols
  cases cols with
  | nil => rfl
  | cons c0 t =>
    cases t with
    | nil => rfl
    | cons c1 rest => rfl

theorem pairLE_trans (a b c : String × String)
    (h1 : pairLE a b) (h2 : pairLE b c) : pairLE a c := by
  rcases h1 with h1 | ⟨e1, l1⟩ <;> rcases h2 with h2 | ⟨e2, l2⟩
  · exact Or.inl (lt_trans h1 h2)
  · exact Or.inl (e2 ▸ h1)
  · exact Or.inl (e1 ▸ h2)
  · exact Or.inr ⟨e1.trans e2, le_trans l1 l2⟩

theorem pairLE_total (a b : String × String) : pairLE a b ∨ pairLE b a := by
  rcases lt_trichotomy a.1 b.1 with h | h | h
  · exact Or.inl (Or.inl h)
  · rcases le_total a.2 b.2 with h2 | h2
    · exact Or.inl (Or.inr ⟨h, h2⟩)
    · exact Or.inr (Or.inr ⟨h.symm, h2⟩)
  · exact Or.inr (Or.inl h)

theorem resLE_trans (a b c : Residence)
    (h1 : resLE a b = true) (h2 : resLE b c = true) : resLE a c = true := by
  simp only [resLE, decide_eq_true_eq] at h1 h2 ⊢
  exact pairLE_trans _ _ _ h1 h2

theorem resLE_total (a b : Residence) : (resLE a b || resLE b a) = true := by
  simp only [resLE, Bool.or_eq_true, decide_eq_true_eq]
  exact pairLE_total _ _

theorem resLE_cli_trans (a b c : ResidenceCli)
    (h1 : resLE_cli a b = true) (h2 : resLE_cli b c = true) : resLE_cli a c = true := by
  simp only [resLE_cli, decide_eq_true_eq] at h1 h2 ⊢
  exact pairLE_trans _ _ _ h1 h2

theorem resLE_cli_total (a b : ResidenceCli) : (resLE_cli a b || resLE_cli b a) = true := by
  simp only [resLE_cli, Bool.or_eq_true, decide_eq_true_eq]
  exact pairLE_total _ _

theorem processUnits_spec (res : Residence) (p : Snapshot) :
    ∀ (ls : List UnitRecord) (cur : Snapshot) (evs : List UpgradeEvent),
    processUnits res p ls cur evs =
      (writeObs (ls.map fun l => (res, l)) cur,
       evs ++ ls.filterMap fun l => eventOf p (res, l)) := by
  intro ls
  induction ls with
  | nil => intro cur evs; simp [processUnits, writeObs]
  | cons l ls ih =>
    intro cur evs
    have hev : eventOf p (res, l) =
        if rank l.status > rank ((p (snapKey res.id l.type)).getD "INDISPONIBLE") then
          some (mkUpgradeEvent res l ((p (snapKey res.id l.type)).getD "INDISPONIBLE"))
        else none := rfl
    simp only [processUnits, List.map_cons, writeObs, List.filterMap_cons, hev]
    rw [ih]
    by_cases h : rank l.status > rank ((p (snapKey res.id l.type)).getD "INDISPONIBLE")
    · simp [h]
    · simp [h]

theorem writeObs_append (a b : List (Residence × UnitRecord)) :
    ∀ cur : Snapshot, writeObs (a ++ b) cur = writeObs b (writeObs a cur) := by
  induction a with
  | nil => intro cur; simp [writeObs]
  | cons rl rest ih => intro cur; simp [writeObs, ih]

theorem runScan_spec (p : Snapshot) :
    ∀ (inputs : List (Residence × FetchOutcome)) (cur : Snapshot)
      (acc : List (Residence × List UnitRecord)) (evs : List UpgradeEvent),
    runScan p inputs cur acc evs =
      (writeObs (observations inputs) cur,
       acc ++ inputs.map fun ri => (ri.1, unitsOf ri.2),
       evs ++ (observations inputs).filterMap (eventOf p)) := by
  intro inputs
  induction inputs with
  | nil => intro cur acc evs; simp [runScan, observations, writeObs]
  | cons ri rest ih =>
    intro cur acc evs
    obtain ⟨res, o⟩ := ri
    have hobs : observations ((res, o) :: rest) =
        ((unitsOf o).map fun l => (res, l)) ++ observations rest := by
      simp [observations]
    cases o with
    | fetchError =>
      simp only [runScan]
      rw [ih, hobs]
      simp [unitsOf, writeObs]
    | noIframe =>
      simp only [runScan]
      rw [ih, hobs]
      simp [unitsOf, writeObs]
    | ok ls =>
      simp only [runScan, processUnits_spec]
      rw [ih, hobs]
      simp [unitsOf, writeObs_append, List.filterMap_append]
      rfl

theorem writeObs_lookup (k : String) :
    ∀ (obs : List (Residence × UnitRecord)) (cur : Snapshot),
    writeObs obs cur k = (lastStatusWrite k obs).or (cur k) := by
  intro obs
  induction obs with
  | nil => intro cur; simp [writeObs, lastStatusWrite]
  | cons rl rest ih =>
    intro cur
    simp only [writeObs, lastStatusWrite]
    rw [ih, Option.or_assoc]
    by_cases h : k = snapKey rl.1.id rl.2.type
    · simp [h]
    · simp [h]

/-! Concrete inputs used by counterexamples and witnesses. -/

/-- A sample residence. -/
def res10 : Residence := { id := "10", nom := "Res Dix", ville := "Paris", cp := "75001" }

/-- The empty snapshot (first run, no `last_state.json`). -/
def emptySnap : Snapshot := fun _ => none

/-- A prior snapshot holding only key "10_T1" at DISPONIBLE. -/
def prevSnapC1 : Snapshot := fun k => if k = "10_T1" then some "DISPONIBLE" else none

/-- First of two same-label records. -/
def recT1open : UnitRecord :=
  { type := "T1", loyer := "600", surface := "18", status := "DEPOSER_DEMANDE" }

/-- Second of two same-label records. -/
def recT1dispo : UnitRecord :=
  { type := "T1", loyer := "610", surface := "18", status := "DISPONIBLE" }

/-- A fragment with no table rows whose raw markup carries an immediate
marker. -/
def pageImmed : Page := { rows := [], html := "Disponibilité immédiate".data }

/-- A row-less fragment whose raw markup carries the request marker and the
none marker but no immediate marker: the fallback scenario on which the two
implementations diverge. -/
def pageDemande : Page :=
  { rows := [], html := "Vous pouvez poser une demande. Aucune disponibilité.".data }

/-- A catalog with one Île-de-France entry whose title contains the excluded
brand substring. -/
def catLogifac : List (String × CatalogInfo) :=
  [("1", { cp := some "75001", titre := some "Logifac Ouest", titre_fr := none,
           ville := some "Paris", adresse := none })]

/-! Claims. -/

/-- C2: for each of the 16 combinations of the four availability signals the
classifier returns exactly one of the four statuses, following the priority
cascade of the spec (here `specClassify`, written from the spec text, with
`specStatusName` translating the spec's status names to the code's strings);
in particular the contradictory combination of immediate-text together with
none-text resolves to the immediately-available status. -/
theorem classifier_cascade_totality :
    ∀ has_btn has_dispo_immed is_green has_aucune : Bool,
      classifyStatus has_btn has_dispo_immed is_green has_aucune =
        specStatusName (specClassify has_btn has_dispo_immed is_green has_aucune) ∧
      (classifyStatus has_btn has_dispo_immed is_green has_aucune ∈
        ["DISPONIBLE", "DEPOSER_DEMANDE", "DEMANDE_POSSIBLE", "INDISPONIBLE"]) ∧
      classifyStatus has_btn true is_green true = "DISPONIBLE" := by
  decide

/-- C3: the upgrade events of a run are exactly the observed records whose
new rank strictly exceeds the rank of the previous status of their key (a key
absent from the prior snapshot defaults to INDISPONIBLE), emitted in
observation order — residence order, then unit order within a residence. -/
theorem upgrade_events_iff_rank_increase (previous_state : Snapshot)
    (inputs : List (Residence × FetchOutcome)) :
    ((runMonitor previous_state inputs).2.2 =
      (observations inputs).filterMap (eventOf previous_state)) ∧
    (∀ rl : Residence × UnitRecord,
      eventOf previous_state rl =
        if rank rl.2.status >
            rank ((previous_state (snapKey rl.1.id rl.2.type)).getD "INDISPONIBLE") then
          some (mkUpgradeEvent rl.1 rl.2
            ((previous_state (snapKey rl.1.id rl.2.type)).getD "INDISPONIBLE"))
        else none) := by
  constructor
  · unfold runMonitor
    rw [runScan_spec]
    simp
  · intro rl
    rfl

/-- C4: a row with at least two cells is accepted as a unit row exactly when
its first cell's text starts with a capital T followed immediately by a
digit; "T1" and "T3 Bis" pass the gate while "Studio" and a bare "T" are
rejected silently (no record is produced and no error is raised). -/
theorem row_gate_characterization :
    ∀ (c0 c1 : Cell) (rest : List Cell),
      ((rowRecord_monitor (c0 :: c1 :: rest)).isSome = reMatchTDigit c0.text) ∧
      reMatchTDigit "T1" = true ∧ reMatchTDigit "T3 Bis" = true ∧
      reMatchTDigit "Studio" = false ∧ reMatchTDigit "T" = false := by
  intro c0 c1 rest
  refine ⟨?_, by decide, by decide, by decide, by decide⟩
  cases h : reMatchTDigit c0.text <;> simp [rowRecord_monitor, h]

/-- C5: when the row pass yields zero records, the fallback pass produces at
most one synthetic record, always with unit type "?" and empty rent and
surface; it yields exactly one immediately-available record when the raw
markup carries an immediate marker, and zero records when neither the
immediate marker nor the request marker is present. -/
theorem fallback_arity (pg : Page)
    (h : pg.rows.filterMap rowRecord_monitor = []) :
    (check_availability_monitor pg).length ≤ 1 ∧
    (∀ r ∈ check_availability_monitor pg,
        r.type = "?" ∧ r.loyer = "" ∧ r.surface = "") ∧
    (has_immed_raw pg.html = true →
      check_availability_monitor pg =
        [{ type := "?", loyer := "", surface := "", status := "DISPONIBLE" }]) ∧
    (has_immed_raw pg.html = false → has_deposer_raw pg.html = false →
      check_availability_monitor pg = []) := by
  have hc : check_availability_monitor pg = fallback_monitor pg.html := by
    unfold check_availability_monitor
    rw [h]
    rfl
  rw [hc]
  unfold fallback_monitor
  by_cases hi : has_immed_raw pg.html <;> by_cases hd : has_deposer_raw pg.html <;>
    by_cases ha : has_aucune_raw pg.html <;> simp [hi, hd, ha]

/-- C5 witness: a row-less fragment whose markup contains "immédiate" yields
exactly the one synthetic immediately-available record. -/
theorem fallback_arity_witness :
    check_availability_monitor pageImmed =
      [{ type := "?", loyer := "", surface := "", status := "DISPONIBLE" }] :=
  (fallback_arity pageImmed rfl).2.2.1 (by decide)

/-- C7: the result list of a run has exactly one entry per attempted
residence, in directory order; a residence whose fetch raised an exception
 (or whose page had no reservation iframe) is still recorded, with an empty
unit sequence, and the remaining residences are processed unchanged — a
single failure never aborts the run. -/
theorem partial_failure_isolation (previous_state : Snapshot)
    (inputs : List (Residence × FetchOutcome)) :
    ((runMonitor previous_state inputs).2.1 =
      inputs.map fun ri => (ri.1, unitsOf ri.2)) ∧
    (∀ res : Residence, (res, FetchOutcome.fetchError) ∈ inputs →
      (res, ([] : List UnitRecord)) ∈ (runMonitor previous_state inputs).2.1) := by
  have hmain : (runMonitor previous_state inputs).2.1 =
      inputs.map fun ri => (ri.1, unitsOf ri.2) := by
    unfold runMonitor
    rw [runScan_spec]
    simp
  refine ⟨hmain, ?_⟩
  intro res hres
  rw [hmain]
  exact List.mem_map.mpr ⟨(res, FetchOutcome.fetchError), hres, rfl⟩

/-- C9: in an accepted two-cell row, the rent cell and the availability
signal cell coincide — the second cell is also the last — so all four
signals are evaluated on the rent cell; concretely, a row ["T1", rent cell
containing "Aucune disponibilité" and a reserve button] classifies as
DEMANDE_POSSIBLE via signals read from the rent cell. -/
theorem two_cell_row_rent_is_signal_cell :
    ∀ c0 c1 : Cell,
      (rowRecord_monitor [c0, c1] =
        if reMatchTDigit c0.text then
          some { type := c0.text, loyer := c1.text, surface := "",
                 status := classifyStatus c1.hasBtnReserver
                   (reSearchDispoImmed c1.textSpaced.data) (spanGreen c1)
                   (reSearchAucune c1.textSpaced.data) }
        else none) ∧
      rowRecord_monitor
        [{ text := "T1", textSpaced := "T1", hasBtnReserver := false,
           dispoSpanClasses := none },
         { text := "650 euros", textSpaced := "650 euros Aucune disponibilité",
           hasBtnReserver := true, dispoSpanClasses := none }] =
        some { type := "T1", loyer := "650 euros", surface := "",
               status := "DEMANDE_POSSIBLE" } := by
  intro c0 c1
  exact ⟨rfl, by decide⟩

/-- C10: records sharing a unit-type label within one residence share one
snapshot key; the persisted status of a key is the status of the last record
written to it, while upgrade detection compares every record against the
prior snapshot, so one key can emit several events in a single run (here two
events for key "10_T1", whose persisted status is the second record's). -/
theorem duplicate_key_last_write_wins (previous_state : Snapshot)
    (inputs : List (Residence × FetchOutcome)) (k : String) :
    ((runMonitor previous_state inputs).1 k =
       lastStatusWrite k (observations inputs)) ∧
    ((runMonitor emptySnap [(res10, FetchOutcome.ok [recT1open, recT1dispo])]).2.2 =
      [mkUpgradeEvent res10 recT1open "INDISPONIBLE",
       mkUpgradeEvent res10 recT1dispo "INDISPONIBLE"]) ∧
    ((runMonitor emptySnap [(res10, FetchOutcome.ok [recT1open, recT1dispo])]).1 "10_T1" =
      some "DISPONIBLE") := by
  refine ⟨?_, by decide, by decide⟩
  unfold runMonitor
  rw [runScan_spec]
  simp [writeObs_lookup]

/-- C1 counterexample: prior snapshot holds "10_T1" at DISPONIBLE, the run
observes nothing for that key (its only residence fails), yet the snapshot
passed to `save_state` no longer maps the key at all — the prior value is not
carried over. -/
theorem snapshot_carry_over_counterexample :
    prevSnapC1 "10_T1" = some "DISPONIBLE" ∧
    observations [(res10, FetchOutcome.fetchError)] = [] ∧
    (runMonitor prevSnapC1 [(res10, FetchOutcome.fetchError)]).1 "10_T1" = none := by
  decide

/-- C1 (amended): the snapshot persisted at the end of a run contains exactly
the keys observed this run — a key not written by any observation of the run
is absent from the persisted snapshot, whatever status the prior snapshot
held for it (`current_state` starts empty and only observed keys are
written before `save_state`). -/
theorem snapshot_rebuilt_from_scratch (previous_state : Snapshot)
    (inputs : List (Residence × FetchOutcome)) (k : String)
    (h : ∀ rl ∈ observations inputs, snapKey rl.1.id rl.2.type ≠ k) :
    (runMonitor previous_state inputs).1 k = none := by
  have key_eq : ∀ obs : List (Residence × UnitRecord),
      (∀ rl ∈ obs, snapKey rl.1.id rl.2.type ≠ k) → lastStatusWrite k obs = none := by
    intro obs
    induction obs with
    | nil => intro _; rfl
    | cons rl rest ih =>
      intro hm
      simp only [lastStatusWrite]
      rw [ih fun x hx => hm x (List.mem_cons_of_mem _ hx)]
      have hne : ¬k = snapKey rl.1.id rl.2.type :=
        fun he => hm rl (List.mem_cons_self _ _) he.symm
      simp [hne]
  unfold runMonitor
  rw [runScan_spec]
  simp only []
  show writeObs (observations inputs) (fun _ => none) k = none
  rw [writeObs_lookup, key_eq _ h]
  rfl

/-- C1 witness: the amended statement evaluated on the concrete failing-run
input of the counterexample. -/
theorem snapshot_rebuilt_from_scratch_witness :
    (runMonitor prevSnapC1 [(res10, FetchOutcome.fetchError)]).1 "10_T1" = none :=
  snapshot_rebuilt_from_scratch prevSnapC1 [(res10, FetchOutcome.fetchError)] "10_T1"
    (by decide)

/-- C6 counterexample: a catalog entry with allow-listed postal code "75001"
but a title containing "Logifac" is dropped by monitor.py's filter, so that
filter does not return exactly the entries whose postal code matches. -/
theorem directory_filter_counterexample :
    startswithAny "75001" IDF_PREFIXES = true ∧
    get_idf_residences_monitor catLogifac = [] := by
  constructor
  · decide
  · have hf : catLogifac.filterMap
        (fun e => if keep_monitor e then some (mkResidence_monitor e) else none) = [] := by
      decide
    unfold get_idf_residences_monitor
    rw [hf]
    have := List.mergeSort_perm ([] : List Residence) resLE
    exact List.Perm.eq_nil this

/-- C6 (amended): the CLI variant's filter returns exactly the catalog
entries whose postal code starts with an allow-listed Île-de-France value;
the static-page variant additionally excludes entries whose title contains
"logifac" case-insensitively. In both, an entry lacking a postal code is
non-matching rather than an error, and the output is sorted ascending
lexicographically by the (postal code, name) pair. -/
theorem directory_filter_characterization
    (data : List (String × CatalogInfo)) (r : Residence) (rc : ResidenceCli) :
    (r ∈ get_idf_residences_monitor data ↔
      ∃ e ∈ data, keep_monitor e = true ∧ mkResidence_monitor e = r) ∧
    (rc ∈ get_idf_residences_cli data ↔
      ∃ e ∈ data, keep_cli e = true ∧ mkResidence_cli e = rc) ∧
    List.Pairwise (fun a b => pairLE (a.cp, a.nom) (b.cp, b.nom))
      (get_idf_residences_monitor data) ∧
    List.Pairwise (fun a b => pairLE (a.cp, a.nom) (b.cp, b.nom))
      (get_idf_residences_cli data) ∧
    (∀ (rid : String) (info : CatalogInfo), info.cp = none →
      keep_monitor (rid, info) = false ∧ keep_cli (rid, info) = false) := by
  have h0 : startswithAny "" IDF_PREFIXES = false := by decide
  refine ⟨?_, ?_, ?_, ?_, ?_⟩
  · unfold get_idf_residences_monitor
    rw [List.mem_mergeSort]
    simp [List.mem_filterMap, Option.ite_none_right_eq_some]
  · unfold get_idf_residences_cli
    rw [List.mem_mergeSort]
    simp [List.mem_filterMap, Option.ite_none_right_eq_some]
  · unfold get_idf_residences_monitor
    exact (List.sorted_mergeSort resLE_trans resLE_total _).imp
      fun h => of_decide_eq_true h
  · unfold get_idf_residences_cli
    exact (List.sorted_mergeSort resLE_cli_trans resLE_cli_total _).imp
      fun h => of_decide_eq_true h
  · intro rid info h
    constructor
    · simp [keep_monitor, h, h0]
    · simp [keep_cli, h, h0]

/-- C8: the two implementations agree on every fragment the tabular path
handles (their row passes are equal functions); in the fallback scenario —
the row pass yields nothing and the raw markup carries a request marker and a
none marker but no immediate marker — the monitor variant returns no record
while the CLI variant returns exactly one synthetic DEMANDE_POSSIBLE record,
so the two outputs differ there; on every input outside that scenario the two
extractors return the same records; `pageDemande` is a concrete scenario
input exhibiting the divergence. -/
theorem extractor_refinement (pg : Page) :
    (pg.rows.filterMap rowRecord_cli = pg.rows.filterMap rowRecord_monitor) ∧
    (pg.rows.filterMap rowRecord_monitor = [] ∧
       has_deposer_raw pg.html = true ∧ has_aucune_raw pg.html = true ∧
       has_immed_raw pg.html = false →
      check_availability_monitor pg = [] ∧
      check_availability_cli pg =
        [{ type := "?", loyer := "", surface := "", status := "DEMANDE_POSSIBLE" }]) ∧
    (¬(pg.rows.filterMap rowRecord_monitor = [] ∧
        has_deposer_raw pg.html = true ∧ has_aucune_raw pg.html = true ∧
        has_immed_raw pg.html = false) →
      check_availability_cli pg = check_availability_monitor pg) ∧
    (check_availability_monitor pageDemande = [] ∧
     check_availability_cli pageDemande =
       [{ type := "?", loyer := "", surface := "", status := "DEMANDE_POSSIBLE" }]) := by
  have hrow : pg.rows.filterMap rowRecord_cli = pg.rows.filterMap rowRecord_monitor := by
    rw [rowRecord_cli_eq_monitor]
  refine ⟨hrow, ?_, ?_, by decide, by decide⟩
  · rintro ⟨hres, hd, ha, hi⟩
    have hm : check_availability_monitor pg = fallback_monitor pg.html := by
      unfold check_availability_monitor
      rw [hres]
      rfl
    have hc : check_availability_cli pg = fallback_cli pg.html := by
      unfold check_availability_cli
      rw [hrow, hres]
      rfl
    rw [hm, hc]
    unfold fallback_cli fallback_monitor
    rw [has_aucune_raw_cli_eq]
    constructor
    · simp [hi, hd, ha]
    · simp [hi, hd, ha]
  · intro hn
    by_cases hres : pg.rows.filterMap rowRecord_monitor = []
    · have hm : check_availability_monitor pg = fallback_monitor pg.html := by
        unfold check_availability_monitor
        rw [hres]
        rfl
      have hc : check_availability_cli pg = fallback_cli pg.html := by
        unfold check_availability_cli
        rw [hrow, hres]
        rfl
      rw [hm, hc]
      unfold fallback_cli fallback_monitor
      rw [has_aucune_raw_cli_eq]
      by_cases hi : has_immed_raw pg.html
      · simp [hi]
      · by_cases hd : has_deposer_raw pg.html
        · by_cases ha : has_aucune_raw pg.html
          · exact absurd ⟨hres, hd, ha, by simp [hi]⟩ hn
          · simp [hi, hd, ha]
        · simp [hi, hd]
    · unfold check_availability_cli check_availability_monitor
      rw [hrow]
      simp [hres]

end FacHabitat
